import Mathlib

/-!
Verification of `tools/build-webrtc.py` (WebRTC build-matrix orchestration and
artifact-assembly script).

The script is straight-line Python: it computes command strings and issues them
through a single invoker `sh`, interleaved with filesystem operations.  We embed
it shallowly:

* string helpers mirror the Python primitives used by the script
  (`%`-formatting, `str.join`, `str.split`, `str.startswith`);
* each operation the script performs becomes a `Step` (an external command run
  through `sh`, or a filesystem/print operation);
* the functions `setupSteps`, `syncSteps` and `buildSteps` build, line by line,
  the list of steps the corresponding Python function performs (the script's
  control flow never depends on a command's result, so this factoring is exact);
* `runFrom` is the semantics of `sh` lifted over a run: an `Oracle` gives each
  successive child invocation its outcome; exit 0 continues, a non-zero exit
  raises `sys.exit(code)` for the whole run (`subprocess.CalledProcessError`
  branch), and `KeyboardInterrupt` is swallowed and the run continues
  (`except KeyboardInterrupt: pass`);
* effects on the per-platform build directory are interpreted by `bdirApply`,
  tracking the set of paths (relative to the build directory) that exist.
-/

/-! ## Python string primitives used by the script -/

/-- Python `%`-formatting restricted to `%s` placeholders, on character lists:
each `%s` is replaced by the next value, other characters are kept. -/
def pyFormatAux : List Char → List String → List Char
  | [], _ => []
  | '%' :: 's' :: r, v :: vs => v.data ++ pyFormatAux r vs
  | '%' :: 's' :: r, [] => '%' :: 's' :: pyFormatAux r []
  | c :: r, vs => c :: pyFormatAux r vs

/-- Python `fmt % (v1, ..., vn)` for `%s`-only format strings. -/
def pyFormat (fmt : String) (vs : List String) : String :=
  String.mk (pyFormatAux fmt.data vs)

/-- Number of `%s` placeholders in a character list (used to distribute the
substituted values over the entries of a flag table). -/
def countPS : List Char → Nat
  | [] => 0
  | '%' :: 's' :: r => countPS r + 1
  | _ :: r => countPS r

/-- Python `sep.join(parts)`. -/
def pyJoin (sep : String) : List String → String
  | [] => ""
  | [x] => x
  | x :: xs => x ++ sep ++ pyJoin sep xs

/-- Helper for `pySplit`: split a character list at a separator character. -/
def chSplitAux (sep : Char) : List Char → List Char → List (List Char)
  | [], acc => [acc.reverse]
  | c :: r, acc => if c = sep then acc.reverse :: chSplitAux sep r [] else chSplitAux sep r (c :: acc)

/-- Python `s.split(sep)` for a one-character separator. -/
def pySplit (s : String) (sep : Char) : List String :=
  (chSplitAux sep s.data []).map String.mk

/-- Python `s.startswith(pre)`. -/
def pyStartsWith (s pre : String) : Bool :=
  pre.data.isPrefixOf s.data

/-- Python `str(debug).lower()` for a boolean. -/
def pyBool (b : Bool) : String := if b then "true" else "false"

/-- Python `os.path.join(a, b)` as used by the script (second component always
a non-empty relative path, first without trailing slash). -/
def pathJoin (a b : String) : String := a ++ "/" ++ b

/-- The single-quote character, used by `build_gn_args` to wrap the GN argument
list the way the Python source does. -/
def quoteCh : String := String.singleton (Char.ofNat 39)

/-! ## Constants of the script (lines 13-71) -/

/-- `ANDROID_CPU_ABI_MAP` (line 13): architecture to Android ABI name. -/
def ANDROID_CPU_ABI_MAP : List (String × String) :=
  [("arm", "armeabi-v7a"), ("arm64", "arm64-v8a"), ("x86", "x86"), ("x64", "x86_64")]

/-- Python `ANDROID_CPU_ABI_MAP[cpu]` modelled as a total lookup into the
association list; `none` corresponds to a `KeyError`. -/
def androidCpuAbi (cpu : String) : Option String :=
  List.lookup cpu ANDROID_CPU_ABI_MAP

/-- `ANDROID_BUILD_CPUS` (line 19). -/
def ANDROID_BUILD_CPUS : List String := ["arm", "arm64", "x86", "x64"]

/-- `IOS_BUILD_ARCHS` (line 25): `variant:architecture` items. -/
def IOS_BUILD_ARCHS : List String := ["device:arm64", "simulator:arm64", "simulator:x64"]

/-- `MACOS_BUILD_ARCHS` (line 30). -/
def MACOS_BUILD_ARCHS : List String := ["x64"]

/-- `GN_COMMON_ARGS` (line 37): common flag table, with `%s` placeholders for
the debug boolean and the target architecture. -/
def GN_COMMON_ARGS : List String :=
  ["treat_warnings_as_errors=false",
   "is_component_build=false",
   "rtc_libvpx_build_vp9=true",
   "is_debug=%s",
   "target_cpu=\"%s\""]

/-- `build_gn_args` (line 34): joins the common table with the platform layers
into one single-quoted `--args` string. -/
def build_gn_args (platform_args : List String) : String :=
  "--args=" ++ quoteCh ++ pyJoin " " (GN_COMMON_ARGS ++ platform_args) ++ quoteCh

/-- `_GN_APPLE_COMMON` (line 47): Apple platform-family flag table. -/
def GN_APPLE_COMMON : List String :=
  ["enable_dsyms=true", "rtc_include_tests=false"]

/-- `_GN_IOS_ARGS` (line 52): iOS-specific flag table, with a `%s` placeholder
for the target environment (device/simulator variant). -/
def GN_IOS_ARGS_LIST : List String :=
  ["enable_ios_bitcode=true",
   "ios_deployment_target=\"11.0\"",
   "ios_enable_code_signing=false",
   "target_os=\"ios\"",
   "use_xcode_clang=true",
   "target_environment=\"%s\""]

/-- `GN_IOS_ARGS` (line 60). -/
def GN_IOS_ARGS : String := build_gn_args (GN_APPLE_COMMON ++ GN_IOS_ARGS_LIST)

/-- `_GN_MACOS_ARGS` (line 62): macOS-specific flag table. -/
def GN_MACOS_ARGS_LIST : List String :=
  ["target_os=\"mac\"", "use_xcode_clang=false"]

/-- `GN_MACOS_ARGS` (line 66). -/
def GN_MACOS_ARGS : String := build_gn_args (GN_APPLE_COMMON ++ GN_MACOS_ARGS_LIST)

/-- `_GN_ANDROID_ARGS` (line 68): Android-specific flag table. -/
def GN_ANDROID_ARGS_LIST : List String := ["target_os=\"android\""]

/-- `GN_ANDROID_ARGS` (line 71). -/
def GN_ANDROID_ARGS : String := build_gn_args GN_ANDROID_ARGS_LIST

/-! ## The composed flag set (spec's ConfigFlagSet view of the GN arguments)

The script substitutes the values into the single joined `--args` string; the
spec views the same data as an ordered flag set.  `substEntries` applies the
same substitution entry by entry, so that the set's length can be spoken about;
`gn_args_matches_flag_set` below proves the two views produce the same string
for every reachable configuration. -/

/-- Substitute values into a list of flag entries, each entry consuming as many
values as it has `%s` placeholders, in order. -/
def substEntries : List String → List String → List String
  | [], _ => []
  | e :: es, vs =>
    pyFormat e (vs.take (countPS e.data)) :: substEntries es (vs.drop (countPS e.data))

/-- Composed flag set for an iOS device/simulator target:
common table, Apple family table, iOS table, with (debug, arch, variant)
substituted. -/
def composedFlagsApple (debug : Bool) (arch tenv : String) : List String :=
  substEntries (GN_COMMON_ARGS ++ (GN_APPLE_COMMON ++ GN_IOS_ARGS_LIST))
    [pyBool debug, arch, tenv]

/-- Composed flag set for a macOS companion target. -/
def composedFlagsMac (debug : Bool) (arch : String) : List String :=
  substEntries (GN_COMMON_ARGS ++ (GN_APPLE_COMMON ++ GN_MACOS_ARGS_LIST))
    [pyBool debug, arch]

/-- Composed flag set for an Android target. -/
def composedFlagsAndroid (debug : Bool) (cpu : String) : List String :=
  substEntries (GN_COMMON_ARGS ++ GN_ANDROID_ARGS_LIST) [pyBool debug, cpu]

/-! ## Data model: platforms, steps, command outcomes -/

/-- The two build platforms the script supports. -/
inductive Platform where
  | ios
  | android
deriving DecidableEq

/-- The string the script uses for a platform. -/
def Platform.str : Platform → String
  | Platform.ios => "ios"
  | Platform.android => "android"

/-- Call sites of the invoker `sh`, one per textual `sh(...)` occurrence in the
script (bookkeeping only: the command string is carried alongside). -/
inductive CmdSite where
  | gitClone
  | fetch
  | gclientSync
  | installDeps
  | gnGen
  | ninja
  | lipo
  | xcodebuild
  | tar
  | bitcodeStrip
  | jar
deriving DecidableEq

/-- Outcome of one child-process invocation, as observed by `sh` (line 76):
the child's exit code, or a `KeyboardInterrupt` delivered while waiting. -/
inductive CmdResult where
  | exit (code : Nat)
  | interrupt
deriving DecidableEq

/-- An oracle assigning an outcome to each successive child invocation of a
run (invocation 0, 1, 2, ... in issue order). -/
def Oracle : Type := Nat → CmdResult

/-- A filesystem location: either a path relative to the per-platform build
directory (`build/<platform>` under the target dir, the directory whose final
contents the spec describes), or any other path, kept as the literal string
the script computes. -/
inductive Loc where
  | bdir (rel : List String)
  | srcPath (p : String)
deriving DecidableEq

/-- Filesystem / console operations the script performs directly (not through
`sh`).  `copyFile`'s destination is the created file's location (Python
`shutil.copy` into a directory creates the file named after the source's
basename inside it). -/
inductive FsOp where
  | print (s : String)
  | chdir (p : String)
  | mkdirp (l : Loc)
  | rmr (l : Loc)
  | copytree (src dst : Loc)
  | copyFile (src dst : Loc)
  | move (src dst : Loc)
deriving DecidableEq

/-- One step of a run: an external command issued through `sh` (with the
command string exactly as the script formats it, the working directory when
one is passed, and — modelling the external tool's documented effect — the
build-directory-relative paths the command creates on completion), or a direct
filesystem/console operation. -/
inductive Step where
  | sh (site : CmdSite) (cmd : String) (cwd : Option String) (creates : List (List String))
  | fs (op : FsOp)
deriving DecidableEq

/-! ## Environment composition (lines 112-114, 143-152, 169-178)

`setup` composes `PATH` as `'%s:%s' % (env['PATH'], depot_tools_dir)`;
`sync` and `build` compose it as `':'.join(path_parts)` where `path_parts`
starts `[env['PATH'], depot_tools_dir]` and, for Android only, appends the SDK
platform-tools directory, the SDK tools directory and `build/android`. -/

/-- `os.path.join(target_dir, 'depot_tools')`. -/
def depotToolsDirOf (targetDir : String) : String := pathJoin targetDir "depot_tools"

/-- `os.path.join(target_dir, 'webrtc', platform, 'src')`. -/
def webrtcDirOf (targetDir : String) (p : Platform) : String :=
  pathJoin (pathJoin (pathJoin targetDir "webrtc") p.str) "src"

/-- `os.path.join(target_dir, 'build', platform)`. -/
def buildDirOf (targetDir : String) (p : Platform) : String :=
  pathJoin (pathJoin targetDir "build") p.str

/-- The `PATH` composed by `setup` (line 114). -/
def setupEnvPATH (basePATH targetDir : String) : String :=
  pyFormat "%s:%s" [basePATH, depotToolsDirOf targetDir]

/-- The `path_parts` list composed by `build` (lines 171-177) and identically
by `sync` (lines 145-151). -/
def buildPathParts (basePATH : String) (p : Platform) (targetDir : String) : List String :=
  let base := [basePATH, depotToolsDirOf targetDir]
  match p with
  | Platform.android =>
    let androidSdkRoot :=
      pathJoin (webrtcDirOf targetDir Platform.android) "third_party/android_sdk/public"
    base ++ [pathJoin androidSdkRoot "platform-tools",
             pathJoin androidSdkRoot "tools",
             pathJoin (webrtcDirOf targetDir Platform.android) "build/android"]
  | Platform.ios => base

/-- The `PATH` composed by `build` and `sync` (lines 152, 178). -/
def buildEnvPATH (basePATH : String) (p : Platform) (targetDir : String) : String :=
  pyJoin ":" (buildPathParts basePATH p targetDir)

/-! ## Output-directory names

Each phase of `build` recomputes the GN output directory for a target from the
same data.  One definition per phase and per target family, from the format
string at that phase's source line. -/

/-- `'out/%s-ios-%s-%s' % (build_type, tenv, arch)` in the GN phase (line 189). -/
def gnGenOutDirApple (buildType tenv arch : String) : String :=
  pyFormat "out/%s-ios-%s-%s" [buildType, tenv, arch]

/-- `'out/%s-macos-%s' % (build_type, arch)` in the GN phase (line 194). -/
def gnGenOutDirMac (buildType arch : String) : String :=
  pyFormat "out/%s-macos-%s" [buildType, arch]

/-- `'out/%s-%s' % (build_type, cpu)` in the GN phase (line 200). -/
def gnGenOutDirAndroid (buildType cpu : String) : String :=
  pyFormat "out/%s-%s" [buildType, cpu]

/-- The iOS output directory as recomputed in the ninja phase (line 209). -/
def ninjaOutDirApple (buildType tenv arch : String) : String :=
  pyFormat "out/%s-ios-%s-%s" [buildType, tenv, arch]

/-- The macOS output directory as recomputed in the ninja phase (line 213). -/
def ninjaOutDirMac (buildType arch : String) : String :=
  pyFormat "out/%s-macos-%s" [buildType, arch]

/-- The Android output directory as recomputed in the ninja phase (line 218). -/
def ninjaOutDirAndroid (buildType cpu : String) : String :=
  pyFormat "out/%s-%s" [buildType, cpu]

/-- The iOS output directory as recomputed in the assembly phase
(lines 231, 237, 255, 269). -/
def asmOutDirApple (buildType tenv arch : String) : String :=
  pyFormat "out/%s-ios-%s-%s" [buildType, tenv, arch]

/-- The macOS output directory as recomputed in the assembly phase
(lines 258, 274). -/
def asmOutDirMac (buildType arch : String) : String :=
  pyFormat "out/%s-macos-%s" [buildType, arch]

/-- The Android output directory as recomputed in the assembly phase
(lines 280, 286). -/
def asmOutDirAndroid (buildType cpu : String) : String :=
  pyFormat "out/%s-%s" [buildType, cpu]

/-! ## Target selection helpers -/

/-- `'Debug' if debug else 'Release'` (line 161). -/
def buildTypeOf (debug : Bool) : String := if debug then "Debug" else "Release"

/-- `item.split(':')` unpacked to `(tenv, arch)` for a `variant:arch` item. -/
def splitTargetItem (item : String) : String × String :=
  match pySplit item ':' with
  | [tenv, arch] => (tenv, arch)
  | _ => ("", "")

/-- `[item for item in l if item.startswith('simulator')]` (line 229). -/
def simulatorsOf (l : List String) : List String :=
  l.filter (fun item => pyStartsWith item "simulator")

/-- `simulators[0]` (line 230): the canonical simulator target whose framework
bundle receives the fat binary.  (Python indexing of an empty list would raise;
on the script's constant list the filtered list is never empty.) -/
def canonicalSimulator (l : List String) : String :=
  (simulatorsOf l).headD ""

/-! ## The step lists of `build`, `sync` and `setup` -/

/-- GN generation phase of `build` (lines 186-203). -/
def gnPhaseSteps (p : Platform) (debug : Bool) : List Step :=
  let buildType := buildTypeOf debug
  match p with
  | Platform.ios =>
    (IOS_BUILD_ARCHS.map (fun item =>
      let te := splitTargetItem item
      let gnOutDir := gnGenOutDirApple buildType te.1 te.2
      let gnArgs := pyFormat GN_IOS_ARGS [pyBool debug, te.2, te.1]
      Step.sh CmdSite.gnGen (pyFormat "gn gen %s %s" [gnOutDir, gnArgs]) none []))
    ++ (MACOS_BUILD_ARCHS.map (fun arch =>
      let gnOutDir := gnGenOutDirMac buildType arch
      let gnArgs := pyFormat GN_MACOS_ARGS [pyBool debug, arch]
      Step.sh CmdSite.gnGen (pyFormat "gn gen %s %s" [gnOutDir, gnArgs]) none []))
  | Platform.android =>
    ANDROID_BUILD_CPUS.map (fun cpu =>
      let gnOutDir := gnGenOutDirAndroid buildType cpu
      let gnArgs := pyFormat GN_ANDROID_ARGS [pyBool debug, cpu]
      Step.sh CmdSite.gnGen (pyFormat "gn gen %s %s" [gnOutDir, gnArgs]) none [])

/-- Ninja compile phase of `build` (lines 206-220). -/
def ninjaPhaseSteps (p : Platform) (debug : Bool) : List Step :=
  let buildType := buildTypeOf debug
  match p with
  | Platform.ios =>
    (IOS_BUILD_ARCHS.map (fun item =>
      let te := splitTargetItem item
      let gnOutDir := ninjaOutDirApple buildType te.1 te.2
      Step.sh CmdSite.ninja (pyFormat "ninja -C %s framework_objc" [gnOutDir]) none []))
    ++ (MACOS_BUILD_ARCHS.map (fun arch =>
      let gnOutDir := ninjaOutDirMac buildType arch
      Step.sh CmdSite.ninja (pyFormat "ninja -C %s mac_framework_objc" [gnOutDir]) none []))
  | Platform.android =>
    ANDROID_BUILD_CPUS.map (fun cpu =>
      let gnOutDir := ninjaOutDirAndroid buildType cpu
      Step.sh CmdSite.ninja
        (pyFormat "ninja -C %s libwebrtc libjingle_peerconnection_so" [gnOutDir]) none [])

/-- iOS artifact assembly (lines 227-278): fat simulator merge, framework
swap, then the two XCFramework bundle/archive/remove passes with the in-place
bitcode strip between them.  `xcodebuild -create-xcframework` creates the
`-output` bundle inside the build directory; `tar` (run with the build
directory as working directory) creates the archive there. -/
def asmStepsApple (targetDir : String) (debug : Bool) : List Step :=
  let buildType := buildTypeOf debug
  let buildDir := buildDirOf targetDir Platform.ios
  let simulators := simulatorsOf IOS_BUILD_ARCHS
  let te := splitTargetItem (canonicalSimulator IOS_BUILD_ARCHS)
  let gnOutDir := asmOutDirApple buildType te.1 te.2
  let outLibPath := pathJoin (pathJoin gnOutDir "fat-WebRTC.framework") "WebRTC"
  let slicePaths := simulators.map (fun item =>
    let te2 := splitTargetItem item
    pathJoin (pathJoin (asmOutDirApple buildType te2.1 te2.2) "WebRTC.framework") "WebRTC")
  let effectiveArchs :=
    (IOS_BUILD_ARCHS.filter (fun item => !(pyStartsWith item "simulator")))
      ++ [canonicalSimulator IOS_BUILD_ARCHS]
  let xcframeworkPath := pathJoin buildDir "WebRTC.xcframework"
  let xcodebuildCmd :=
    MACOS_BUILD_ARCHS.foldl (fun cmd arch =>
        cmd ++ pyFormat " -framework %s"
          [pathJoin (asmOutDirMac buildType arch) "WebRTC.framework"])
      (effectiveArchs.foldl (fun cmd item =>
          let te2 := splitTargetItem item
          cmd ++ pyFormat " -framework %s"
            [pathJoin (asmOutDirApple buildType te2.1 te2.2) "WebRTC.framework"])
        (pyFormat "xcodebuild -create-xcframework -output %s" [xcframeworkPath]))
  [Step.fs (FsOp.copytree (Loc.srcPath (pathJoin gnOutDir "WebRTC.framework"))
      (Loc.srcPath (pathJoin gnOutDir "fat-WebRTC.framework"))),
   Step.sh CmdSite.lipo
     (pyFormat "lipo %s -create -output %s" [pyJoin " " slicePaths, outLibPath]) none [],
   Step.fs (FsOp.move (Loc.srcPath (pathJoin gnOutDir "WebRTC.framework"))
      (Loc.srcPath (pathJoin gnOutDir "bak-WebRTC.framework"))),
   Step.fs (FsOp.move (Loc.srcPath (pathJoin gnOutDir "fat-WebRTC.framework"))
      (Loc.srcPath (pathJoin gnOutDir "WebRTC.framework"))),
   Step.sh CmdSite.xcodebuild xcodebuildCmd none [["WebRTC.xcframework"]],
   Step.sh CmdSite.tar "tar zcf WebRTC.xcframework-bitcode.tgz WebRTC.xcframework"
     (some buildDir) [["WebRTC.xcframework-bitcode.tgz"]],
   Step.fs (FsOp.rmr (Loc.bdir ["WebRTC.xcframework"]))]
  ++ (effectiveArchs.map (fun item =>
      let te2 := splitTargetItem item
      let frameworkPath :=
        pathJoin (pathJoin (asmOutDirApple buildType te2.1 te2.2) "WebRTC.framework") "WebRTC"
      Step.sh CmdSite.bitcodeStrip
        (pyFormat "xcrun bitcode_strip -r %s -o %s" [frameworkPath, frameworkPath]) none []))
  ++ [Step.sh CmdSite.xcodebuild xcodebuildCmd none [["WebRTC.xcframework"]],
      Step.sh CmdSite.tar "tar zcf WebRTC.xcframework.tgz WebRTC.xcframework"
        (some buildDir) [["WebRTC.xcframework.tgz"]],
      Step.fs (FsOp.rmr (Loc.bdir ["WebRTC.xcframework"]))]

/-- Android artifact assembly (lines 280-291): copy the Java interface
archive, stage each architecture's shared library in an ABI-named directory,
package, remove the staging tree, archive.  The ABI directory name comes from
`ANDROID_CPU_ABI_MAP[cpu]`; `androidCpuAbi` is total on the planned CPU list
(claim C10), so the `getD` default is never taken. -/
def asmStepsAndroid (targetDir : String) (debug : Bool) : List Step :=
  let buildType := buildTypeOf debug
  let buildDir := buildDirOf targetDir Platform.android
  let gnOutDir0 := asmOutDirAndroid buildType (ANDROID_BUILD_CPUS.headD "")
  [Step.fs (FsOp.copyFile
      (Loc.srcPath (pathJoin gnOutDir0 "lib.java/sdk/android/libwebrtc.jar"))
      (Loc.bdir ["libwebrtc.jar"]))]
  ++ (ANDROID_BUILD_CPUS.flatMap (fun cpu =>
      let abi := (androidCpuAbi cpu).getD cpu
      [Step.fs (FsOp.mkdirp (Loc.bdir ["lib", abi])),
       Step.fs (FsOp.copyFile
         (Loc.srcPath (pathJoin (asmOutDirAndroid buildType cpu) "libjingle_peerconnection_so.so"))
         (Loc.bdir ["lib", abi, "libjingle_peerconnection_so.so"]))]))
  ++ [Step.sh CmdSite.jar "jar cvfM libjingle_peerconnection.so.jar lib"
        (some buildDir) [["libjingle_peerconnection.so.jar"]],
      Step.fs (FsOp.rmr (Loc.bdir ["lib"])),
      Step.sh CmdSite.tar "tar zcf android-webrtc.tgz *.jar"
        (some buildDir) [["android-webrtc.tgz"]]]

/-- The full step list of `build` once the source-tree precondition holds
(lines 180-291): change into the source tree, remove the previous `out` tree,
GN phase, ninja phase, recreate the build directory, assemble. -/
def buildSteps (targetDir : String) (p : Platform) (debug : Bool) : List Step :=
  [Step.fs (FsOp.chdir (webrtcDirOf targetDir p)),
   Step.fs (FsOp.rmr (Loc.srcPath "out"))]
  ++ gnPhaseSteps p debug
  ++ ninjaPhaseSteps p debug
  ++ [Step.fs (FsOp.rmr (Loc.bdir [])),
      Step.fs (FsOp.mkdirp (Loc.bdir []))]
  ++ (match p with
      | Platform.ios => asmStepsApple targetDir debug
      | Platform.android => asmStepsAndroid targetDir debug)

/-- The step list of `sync` once the source-tree precondition holds
(lines 154-156). -/
def syncSteps (targetDir : String) (p : Platform) : List Step :=
  [Step.fs (FsOp.chdir (webrtcDirOf targetDir p)),
   Step.sh CmdSite.gclientSync "gclient sync -D" none []]

/-- The step list of `setup` (lines 102-131); `depotExists` and
`webrtcExists` are the two `os.path.isdir` probes it branches on. -/
def setupSteps (targetDir : String) (p : Platform) (depotExists webrtcExists : Bool) : List Step :=
  [Step.fs (FsOp.mkdirp (Loc.srcPath targetDir)),
   Step.fs (FsOp.chdir targetDir)]
  ++ (if depotExists then [] else
      [Step.fs (FsOp.print "Fetching Chromium depot_tools..."),
       Step.sh CmdSite.gitClone
         "git clone https://chromium.googlesource.com/chromium/tools/depot_tools.git" none []])
  ++ (if webrtcExists then [] else
      [Step.fs (FsOp.mkdirp (Loc.srcPath (pathJoin (pathJoin targetDir "webrtc") p.str))),
       Step.fs (FsOp.chdir (pathJoin (pathJoin targetDir "webrtc") p.str)),
       Step.fs (FsOp.print (pyFormat "Fetching WebRTC for %s..." [p.str])),
       Step.sh CmdSite.fetch (pyFormat "fetch --nohooks webrtc_%s" [p.str]) none []])
  ++ [Step.sh CmdSite.gclientSync "gclient sync" none []]
  ++ (match p with
      | Platform.android =>
        [Step.fs (FsOp.chdir (webrtcDirOf targetDir Platform.android)),
         Step.sh CmdSite.installDeps "./build/install-build-deps.sh" none []]
      | Platform.ios => [])

/-! ## Run semantics: the invoker `sh` lifted over a step list -/

/-- Execute a step list against an oracle, mirroring `sh` (lines 76-83):
a filesystem step always proceeds; an `sh` step consults the oracle's next
outcome — exit 0 continues, exit `c+1` stops the whole run with exit status
`c+1` (`sys.exit(e.returncode)`), and an interrupt is swallowed and the run
continues.  Returns the final exit status (`none` when the list was run to its
end) and the trace of steps actually performed, the failing command included. -/
def runFrom (o : Oracle) : List Step → Option Nat × List Step
  | [] => (none, [])
  | Step.sh site cmd cwd creates :: rest =>
    match o 0 with
    | CmdResult.exit 0 =>
      let r := runFrom (fun j => o (j + 1)) rest
      (r.1, Step.sh site cmd cwd creates :: r.2)
    | CmdResult.exit (c + 1) => (some (c + 1), [Step.sh site cmd cwd creates])
    | CmdResult.interrupt =>
      let r := runFrom (fun j => o (j + 1)) rest
      (r.1, Step.sh site cmd cwd creates :: r.2)
  | Step.fs op :: rest =>
    let r := runFrom o rest
    (r.1, Step.fs op :: r.2)

/-- `build(target_dir, platform, debug)` (line 159): if the source tree is
missing, report and exit 1 before anything runs (lines 165-167); otherwise run
the build step list. -/
def buildRun (targetDir : String) (p : Platform) (debug : Bool)
    (webrtcDirExists : Bool) (o : Oracle) : Option Nat × List Step :=
  if webrtcDirExists then runFrom o (buildSteps targetDir p debug)
  else (some 1, [Step.fs (FsOp.print "WebRTC source not found, did you forget to run --setup?")])

/-- `sync(target_dir, platform)` (line 134), with the same precondition check
(lines 139-141). -/
def syncRun (targetDir : String) (p : Platform)
    (webrtcDirExists : Bool) (o : Oracle) : Option Nat × List Step :=
  if webrtcDirExists then runFrom o (syncSteps targetDir p)
  else (some 1, [Step.fs (FsOp.print "WebRTC source not found, did you forget to run --setup?")])

/-- `setup(target_dir, platform)` (line 102); it has no precondition check. -/
def setupRun (targetDir : String) (p : Platform) (depotExists webrtcExists : Bool)
    (o : Oracle) : Option Nat × List Step :=
  runFrom o (setupSteps targetDir p depotExists webrtcExists)

/-- Process exit status of a run: the propagated `sys.exit` code, or 0 when
the run completed (the `__main__` block then prints the completion line and
exits 0, lines 339-342). -/
def exitStatusOf (r : Option Nat × List Step) : Nat := r.1.getD 0

/-- The sequence of `sh` call sites in a step list, in order: the external
commands a run issues. -/
def shSites : List Step → List CmdSite
  | [] => []
  | Step.sh site _ _ _ :: r => site :: shSites r
  | Step.fs _ :: r => shSites r

/-- Number of external commands in a step list. -/
def countSh (l : List Step) : Nat := (shSites l).length

/-- `l₁` is an initial segment of `l₂` (a run's trace is always an initial
segment of its step list). -/
def isFrontOf {α : Type} (l₁ l₂ : List α) : Prop := ∃ t, l₁ ++ t = l₂

/-! ## Build-directory interpretation -/

/-- Add a path to the set of existing build-directory paths (no duplicates). -/
def insertPath (paths : List (List String)) (p : List String) : List (List String) :=
  if paths.contains p then paths else paths ++ [p]

/-- The non-empty ancestors of a relative path, the path itself included
(`mkdirp` creates all intermediate directories). -/
def ancestorsOf (p : List String) : List (List String) :=
  (List.range p.length).map (fun n => p.take (n + 1))

/-- Effect of one step on the set of paths existing under the per-platform
build directory: commands create their annotated outputs, `mkdirp` creates a
directory chain, copies create their destination, `rmr` removes a path and
everything below it.  Steps touching other locations leave the set unchanged. -/
def bdirApply (paths : List (List String)) : Step → List (List String)
  | Step.sh _ _ _ creates => creates.foldl insertPath paths
  | Step.fs op =>
    match op with
    | FsOp.mkdirp (Loc.bdir p) => (ancestorsOf p).foldl insertPath paths
    | FsOp.copyFile _ (Loc.bdir p) => insertPath paths p
    | FsOp.copytree _ (Loc.bdir p) => insertPath paths p
    | FsOp.rmr (Loc.bdir p) => paths.filter (fun x => !(p.isPrefixOf x))
    | _ => paths

/-- Contents of the per-platform build directory after a trace, starting from
an empty directory. -/
def bdirFinal (steps : List Step) : List (List String) :=
  steps.foldl bdirApply []

/-- Build-directory-relevant events of a trace, in order: each external
command (by call site) and each removal of a build-directory path. -/
inductive BTag where
  | ranCmd (site : CmdSite)
  | removedRel (p : List String)
deriving DecidableEq

/-- Project a step list onto its build-directory-relevant events. -/
def bdirTags : List Step → List BTag
  | [] => []
  | Step.sh site _ _ _ :: r => BTag.ranCmd site :: bdirTags r
  | Step.fs (FsOp.rmr (Loc.bdir p)) :: r => BTag.removedRel p :: bdirTags r
  | _ :: r => bdirTags r

/-- A step's effect on the build directory, with all non-build-directory data
(command strings, foreign paths) projected away.  `bdirApply` factors through
this projection (`bdirApply_eq_bOp` below), which keeps the interpretation of
a run independent of the abstract target-directory and build-type strings. -/
inductive BOp where
  | creates (ps : List (List String))
  | create1 (p : List String)
  | mk (p : List String)
  | rm (p : List String)
deriving DecidableEq

/-- The build-directory effect of one step, if any. -/
def stepBOp : Step → Option BOp
  | Step.sh _ _ _ creates => some (BOp.creates creates)
  | Step.fs (FsOp.mkdirp (Loc.bdir p)) => some (BOp.mk p)
  | Step.fs (FsOp.copyFile _ (Loc.bdir p)) => some (BOp.create1 p)
  | Step.fs (FsOp.copytree _ (Loc.bdir p)) => some (BOp.create1 p)
  | Step.fs (FsOp.rmr (Loc.bdir p)) => some (BOp.rm p)
  | _ => none

/-- Interpretation of one projected effect. -/
def bOpApply (paths : List (List String)) : BOp → List (List String)
  | BOp.creates ps => ps.foldl insertPath paths
  | BOp.create1 p => insertPath paths p
  | BOp.mk p => (ancestorsOf p).foldl insertPath paths
  | BOp.rm p => paths.filter (fun x => !(p.isPrefixOf x))

/-- The projected build-directory effects of a step list. -/
def bdirOps (steps : List Step) : List BOp := steps.filterMap stepBOp

/-- Final build-directory contents computed from the projected effects. -/
def bOpsFinal (ops : List BOp) : List (List String) := ops.foldl bOpApply []

/-! ## Concrete oracles used in witnesses and counterexamples -/

/-- Oracle under which every child invocation exits 0. -/
def allOk : Oracle := fun _ => CmdResult.exit 0

/-- Oracle under which every child invocation is interrupted. -/
def allInterrupt : Oracle := fun _ => CmdResult.interrupt

/-- Oracle under which the first child invocation is interrupted and all
later ones exit 0. -/
def interruptFirst : Oracle :=
  fun j => if j = 0 then CmdResult.interrupt else CmdResult.exit 0

/-- Oracle under which every child invocation exits 5. -/
def constFail5 : Oracle := fun _ => CmdResult.exit 5

/-- The `sh` call-site sequence of an iOS build run to completion. -/
def iosSiteSeq : List CmdSite :=
  [CmdSite.gnGen, CmdSite.gnGen, CmdSite.gnGen, CmdSite.gnGen,
   CmdSite.ninja, CmdSite.ninja, CmdSite.ninja, CmdSite.ninja,
   CmdSite.lipo, CmdSite.xcodebuild, CmdSite.tar,
   CmdSite.bitcodeStrip, CmdSite.bitcodeStrip,
   CmdSite.xcodebuild, CmdSite.tar]

/-- Build-directory events of a full iOS build, in order: each archive (`tar`)
of the XCFramework bundle is followed by the bundle directory's removal, and
the bitcode strips happen after the first (bitcode-preserving) archive. -/
def iosBdirTagSeq : List BTag :=
  [BTag.ranCmd CmdSite.gnGen, BTag.ranCmd CmdSite.gnGen, BTag.ranCmd CmdSite.gnGen,
   BTag.ranCmd CmdSite.gnGen,
   BTag.ranCmd CmdSite.ninja, BTag.ranCmd CmdSite.ninja, BTag.ranCmd CmdSite.ninja,
   BTag.ranCmd CmdSite.ninja,
   BTag.removedRel [],
   BTag.ranCmd CmdSite.lipo,
   BTag.ranCmd CmdSite.xcodebuild, BTag.ranCmd CmdSite.tar,
   BTag.removedRel ["WebRTC.xcframework"],
   BTag.ranCmd CmdSite.bitcodeStrip, BTag.ranCmd CmdSite.bitcodeStrip,
   BTag.ranCmd CmdSite.xcodebuild, BTag.ranCmd CmdSite.tar,
   BTag.removedRel ["WebRTC.xcframework"]]

/-- Build-directory events of a full Android build, in order: the staging tree
`lib` is removed after the `jar` packaging command. -/
def androidBdirTagSeq : List BTag :=
  [BTag.ranCmd CmdSite.gnGen, BTag.ranCmd CmdSite.gnGen, BTag.ranCmd CmdSite.gnGen,
   BTag.ranCmd CmdSite.gnGen,
   BTag.ranCmd CmdSite.ninja, BTag.ranCmd CmdSite.ninja, BTag.ranCmd CmdSite.ninja,
   BTag.ranCmd CmdSite.ninja,
   BTag.removedRel [],
   BTag.ranCmd CmdSite.jar,
   BTag.removedRel ["lib"],
   BTag.ranCmd CmdSite.tar]

/-- The projected build-directory effects of a full iOS build. -/
def iosBdirOpSeq : List BOp :=
  [BOp.creates [], BOp.creates [], BOp.creates [], BOp.creates [],
   BOp.creates [], BOp.creates [], BOp.creates [], BOp.creates [],
   BOp.rm [], BOp.mk [],
   BOp.creates [],
   BOp.creates [["WebRTC.xcframework"]],
   BOp.creates [["WebRTC.xcframework-bitcode.tgz"]],
   BOp.rm ["WebRTC.xcframework"],
   BOp.creates [], BOp.creates [],
   BOp.creates [["WebRTC.xcframework"]],
   BOp.creates [["WebRTC.xcframework.tgz"]],
   BOp.rm ["WebRTC.xcframework"]]

/-- The projected build-directory effects of a full Android build. -/
def androidBdirOpSeq : List BOp :=
  [BOp.creates [], BOp.creates [], BOp.creates [], BOp.creates [],
   BOp.creates [], BOp.creates [], BOp.creates [], BOp.creates [],
   BOp.rm [], BOp.mk [],
   BOp.create1 ["libwebrtc.jar"],
   BOp.mk ["lib", "armeabi-v7a"],
   BOp.create1 ["lib", "armeabi-v7a", "libjingle_peerconnection_so.so"],
   BOp.mk ["lib", "arm64-v8a"],
   BOp.create1 ["lib", "arm64-v8a", "libjingle_peerconnection_so.so"],
   BOp.mk ["lib", "x86"],
   BOp.create1 ["lib", "x86", "libjingle_peerconnection_so.so"],
   BOp.mk ["lib", "x86_64"],
   BOp.create1 ["lib", "x86_64", "libjingle_peerconnection_so.so"],
   BOp.creates [["libjingle_peerconnection.so.jar"]],
   BOp.rm ["lib"],
   BOp.creates [["android-webrtc.tgz"]]]

/-! ## General lemmas about the run semantics -/

/-- `bdirApply` factors through the string-free effect projection. -/
theorem bdirApply_eq_bOp (paths : List (List String)) (s : Step) :
    bdirApply paths s =
      (match stepBOp s with
       | none => paths
       | some op => bOpApply paths op) := by
  cases s with
  | sh site cmd cwd creates => rfl
  | fs op =>
    cases op with
    | print s2 => rfl
    | chdir p => rfl
    | mkdirp l => cases l <;> rfl
    | rmr l => cases l <;> rfl
    | copytree a b => cases b <;> rfl
    | copyFile a b => cases b <;> rfl
    | move a b => rfl

/-- Folding the step interpretation equals folding the projected effects. -/
theorem foldl_bdirApply_eq (steps : List Step) :
    ∀ paths, steps.foldl bdirApply paths = (bdirOps steps).foldl bOpApply paths := by
  induction steps with
  | nil => intro paths; rfl
  | cons s r ih =>
    intro paths
    rw [List.foldl_cons, bdirApply_eq_bOp]
    cases h : stepBOp s with
    | none => simp only [bdirOps, List.filterMap_cons, h, ih]
    | some op => simp only [bdirOps, List.filterMap_cons, h, List.foldl_cons, ih]

/-- The final build-directory contents can be computed from the projected
effects alone. -/
theorem bdirFinal_eq_bOps (steps : List Step) :
    bdirFinal steps = bOpsFinal (bdirOps steps) :=
  foldl_bdirApply_eq steps []

/-- Substitution never changes the number of flag entries: each `%s` is filled
in place. -/
theorem substEntries_length : ∀ (es vs : List String), (substEntries es vs).length = es.length := by
  intro es
  induction es with
  | nil => intro vs; rfl
  | cons e es ih => intro vs; simp [substEntries, ih]

/-- `shSites` distributes over append. -/
theorem shSites_append : ∀ (a b : List Step), shSites (a ++ b) = shSites a ++ shSites b := by
  intro a b
  induction a with
  | nil => rfl
  | cons s r ih =>
    cases s with
    | sh site cmd cwd creates => simp [shSites, ih]
    | fs op => simp [shSites, ih]

/-- The trace of a run is an initial segment of its step list. -/
theorem runFrom_front : ∀ (steps : List Step) (o : Oracle), isFrontOf (runFrom o steps).2 steps := by
  intro steps
  induction steps with
  | nil => exact fun o => ⟨[], rfl⟩
  | cons s rest ih =>
    intro o
    cases s with
    | fs op =>
      obtain ⟨t, ht⟩ := ih o
      exact ⟨t, by simp [runFrom, ht]⟩
    | sh site cmd cwd creates =>
      cases h0 : o 0 with
      | exit code =>
        cases code with
        | zero =>
          obtain ⟨t, ht⟩ := ih (fun j => o (j + 1))
          exact ⟨t, by simp [runFrom, h0, ht]⟩
        | succ c => exact ⟨rest, by simp [runFrom, h0]⟩
      | interrupt =>
        obtain ⟨t, ht⟩ := ih (fun j => o (j + 1))
        exact ⟨t, by simp [runFrom, h0, ht]⟩

/-- If no invocation returns a non-zero exit (each one exits 0 or is
interrupted), the run performs every step and completes normally. -/
theorem runFrom_nofail :
    ∀ (steps : List Step) (o : Oracle),
      (∀ j, o j = CmdResult.exit 0 ∨ o j = CmdResult.interrupt) →
      runFrom o steps = (none, steps) := by
  intro steps
  induction steps with
  | nil => intro o _; rfl
  | cons s rest ih =>
    intro o h
    cases s with
    | fs op => simp [runFrom, ih o h]
    | sh site cmd cwd creates =>
      rcases h 0 with h0 | h0 <;>
        simp [runFrom, h0, ih (fun j => o (j + 1)) (fun j => h (j + 1))]

/-- Fail-fast semantics of `sh`: if invocations before the `k`-th all proceed
(exit 0 or interrupted) and the `k`-th returns a non-zero exit `c`, then the
run's exit status is `c`, exactly `k + 1` external commands were issued, and
the trace is an initial segment of the step list. -/
theorem runFrom_first_fail :
    ∀ (steps : List Step) (o : Oracle) (k c : Nat),
      c ≠ 0 →
      (∀ j, j < k → o j = CmdResult.exit 0 ∨ o j = CmdResult.interrupt) →
      o k = CmdResult.exit c →
      k < countSh steps →
      (runFrom o steps).1 = some c ∧
      countSh (runFrom o steps).2 = k + 1 ∧
      isFrontOf (runFrom o steps).2 steps := by
  intro steps
  induction steps with
  | nil =>
    intro o k c hc hpre hk hlt
    simp [countSh, shSites] at hlt
  | cons s rest ih =>
    intro o k c hc hpre hk hlt
    cases s with
    | fs op =>
      have hlt2 : k < countSh rest := by simpa [countSh, shSites] using hlt
      obtain ⟨h1, h2, t, ht⟩ := ih o k c hc hpre hk hlt2
      exact ⟨by simpa [runFrom] using h1,
             by simpa [runFrom, countSh, shSites] using h2,
             ⟨t, by simp [runFrom, ht]⟩⟩
    | sh site cmd cwd creates =>
      cases k with
      | zero =>
        cases c with
        | zero => exact absurd rfl hc
        | succ c2 =>
          refine ⟨by simp [runFrom, hk], by simp [runFrom, hk, countSh, shSites], ?_⟩
          exact ⟨rest, by simp [runFrom, hk]⟩
      | succ k2 =>
        have hlt2 : k2 < countSh rest := by
          have h3 := hlt
          simp [countSh, shSites] at h3 ⊢
          omega
        have hpre2 : ∀ j, j < k2 →
            (fun j => o (j + 1)) j = CmdResult.exit 0 ∨
            (fun j => o (j + 1)) j = CmdResult.interrupt :=
          fun j hj => hpre (j + 1) (Nat.succ_lt_succ hj)
        obtain ⟨h1, h2, t, ht⟩ := ih (fun j => o (j + 1)) k2 c hc hpre2 hk hlt2
        rcases hpre 0 (Nat.succ_pos k2) with h0 | h0
        · exact ⟨by simpa [runFrom, h0] using h1,
                 by simp [runFrom, h0, countSh, shSites] at h2 ⊢; omega,
                 ⟨t, by simp [runFrom, h0, ht]⟩⟩
        · exact ⟨by simpa [runFrom, h0] using h1,
                 by simp [runFrom, h0, countSh, shSites] at h2 ⊢; omega,
                 ⟨t, by simp [runFrom, h0, ht]⟩⟩

/-- An initial segment of the steps projects to an initial segment of the
command-site sequence. -/
theorem shSites_front {l1 l2 : List Step} (h : isFrontOf l1 l2) :
    isFrontOf (shSites l1) (shSites l2) := by
  obtain ⟨t, ht⟩ := h
  exact ⟨shSites t, by rw [← shSites_append, ht]⟩

/-- Within an initial segment, indexing agrees with the full list. -/
theorem front_getElem {α : Type} {l1 l2 : List α} (h : isFrontOf l1 l2)
    {j : Nat} (hj : j < l1.length) : l2[j]? = l1[j]? := by
  obtain ⟨t, ht⟩ := h
  subst ht
  exact List.getElem?_append_left hj

/-- A successful index bounds the position. -/
theorem lt_of_getElem_some {α : Type} {l : List α} {j : Nat} {a : α}
    (h : l[j]? = some a) : j < l.length := by
  rcases List.getElem?_eq_some_iff.mp h with ⟨hlt, _⟩
  exact hlt

/-- In the iOS command-site sequence, every bitcode-strip command has an
earlier archive (`tar`) command. -/
theorem iosSiteSeq_strip_after_tar :
    ∀ j, j < iosSiteSeq.length → iosSiteSeq[j]? = some CmdSite.bitcodeStrip →
      ∃ i, i < j ∧ iosSiteSeq[i]? = some CmdSite.tar := by
  decide

/-- `'%s:%s' % (a, b)` is `a ++ ":" ++ b`. -/
theorem pyFormat_two (a b : String) : pyFormat "%s:%s" [a, b] = a ++ ":" ++ b := by
  cases a with | mk la =>
  cases b with | mk lb =>
  apply String.ext
  show pyFormatAux ['%', 's', ':', '%', 's'] [String.mk la, String.mk lb] = (la ++ [':']) ++ lb
  simp [pyFormatAux, List.append_assoc]

set_option maxRecDepth 8000 in
/-- The entry-wise flag-set substitution produces exactly the `--args` string
the script formats, for every reachable configuration of every platform. -/
theorem gn_args_matches_flag_set :
    (∀ d : Bool, ∀ item ∈ IOS_BUILD_ARCHS,
      pyFormat GN_IOS_ARGS [pyBool d, (splitTargetItem item).2, (splitTargetItem item).1] =
        "--args=" ++ quoteCh ++
          pyJoin " " (composedFlagsApple d (splitTargetItem item).2 (splitTargetItem item).1) ++
          quoteCh) ∧
    (∀ d : Bool, ∀ arch ∈ MACOS_BUILD_ARCHS,
      pyFormat GN_MACOS_ARGS [pyBool d, arch] =
        "--args=" ++ quoteCh ++ pyJoin " " (composedFlagsMac d arch) ++ quoteCh) ∧
    (∀ d : Bool, ∀ cpu ∈ ANDROID_BUILD_CPUS,
      pyFormat GN_ANDROID_ARGS [pyBool d, cpu] =
        "--args=" ++ quoteCh ++ pyJoin " " (composedFlagsAndroid d cpu) ++ quoteCh) := by
  refine ⟨?_, ?_, ?_⟩ <;> decide

/-! ## Operation modes (the three mutually exclusive CLI modes) -/

/-- The three operation modes of the script: `--setup`, `--sync`, `--build`. -/
inductive Op where
  | opSetup
  | opSync
  | opBuild
deriving DecidableEq

/-- The step list of an operation mode (for `sync` and `build`, the list run
once the source-tree precondition holds). -/
def opSteps (t : String) (p : Platform) (d : Bool) (de we : Bool) : Op → List Step
  | Op.opSetup => setupSteps t p de we
  | Op.opSync => syncSteps t p
  | Op.opBuild => buildSteps t p d

/-- The run of an operation mode with the source tree present. -/
def opRun (t : String) (p : Platform) (d : Bool) (de we : Bool) (o : Oracle) :
    Op → Option Nat × List Step
  | Op.opSetup => setupRun t p de we o
  | Op.opSync => syncRun t p true o
  | Op.opBuild => buildRun t p d true o

/-- Each operation mode's run interprets its step list. -/
theorem opRun_eq_runFrom (t : String) (p : Platform) (d : Bool) (de we : Bool)
    (o : Oracle) (op : Op) :
    opRun t p d de we o op = runFrom o (opSteps t p d de we op) := by
  cases op <;> simp [opRun, opSteps, setupRun, syncRun, buildRun]

/-! ## Claims -/

/-- C1: in every operation mode (setup's fetch phase, and build's generate,
compile, merge, strip and package phases), if the invocations before the
`k`-th all proceed and the `k`-th child exits with a non-zero status `c`, the
run stops at that command — exactly `k + 1` external commands are issued, the
performed steps are an initial segment of the mode's step list — and the
process exit status is exactly `c`. -/
theorem claim1_fail_fast (t : String) (p : Platform) (d de we : Bool) (op : Op)
    (o : Oracle) (k c : Nat)
    (hc : c ≠ 0)
    (hpre : ∀ j, j < k → o j = CmdResult.exit 0 ∨ o j = CmdResult.interrupt)
    (hk : o k = CmdResult.exit c)
    (hlt : k < countSh (opSteps t p d de we op)) :
    (opRun t p d de we o op).1 = some c ∧
    exitStatusOf (opRun t p d de we o op) = c ∧
    countSh (opRun t p d de we o op).2 = k + 1 ∧
    isFrontOf (opRun t p d de we o op).2 (opSteps t p d de we op) := by
  rw [opRun_eq_runFrom]
  obtain ⟨h1, h2, h3⟩ := runFrom_first_fail (opSteps t p d de we op) o k c hc hpre hk hlt
  exact ⟨h1, by simp [exitStatusOf, h1], h2, h3⟩

/-- C1 witness: the very first command of an Android build fails with exit
status 5; the run issues exactly that one command and exits with status 5. -/
theorem claim1_witness :
    (5 ≠ 0) ∧
    (∀ j, j < 0 → constFail5 j = CmdResult.exit 0 ∨ constFail5 j = CmdResult.interrupt) ∧
    constFail5 0 = CmdResult.exit 5 ∧
    0 < countSh (opSteps "" Platform.android false false false Op.opBuild) ∧
    ((opRun "" Platform.android false false false constFail5 Op.opBuild).1 = some 5 ∧
     exitStatusOf (opRun "" Platform.android false false false constFail5 Op.opBuild) = 5 ∧
     countSh (opRun "" Platform.android false false false constFail5 Op.opBuild).2 = 0 + 1 ∧
     isFrontOf (opRun "" Platform.android false false false constFail5 Op.opBuild).2
       (opSteps "" Platform.android false false false Op.opBuild)) :=
  ⟨by decide, fun j hj => absurd hj (Nat.not_lt_zero j), rfl, by decide,
   claim1_fail_fast "" Platform.android false false false Op.opBuild constFail5 0 5
     (by decide) (fun j hj => absurd hj (Nat.not_lt_zero j)) rfl (by decide)⟩

/-- C2: the generate, compile and assembly phases each recompute the output
directory of a target with the same pure function of the build type, variant
and architecture, so for every target of both platforms the three computed
directory names coincide. -/
theorem claim2_outdir_consistent (buildType tenv arch cpu : String) :
    (gnGenOutDirApple buildType tenv arch = ninjaOutDirApple buildType tenv arch ∧
     ninjaOutDirApple buildType tenv arch = asmOutDirApple buildType tenv arch) ∧
    (gnGenOutDirMac buildType arch = ninjaOutDirMac buildType arch ∧
     ninjaOutDirMac buildType arch = asmOutDirMac buildType arch) ∧
    (gnGenOutDirAndroid buildType cpu = ninjaOutDirAndroid buildType cpu ∧
     ninjaOutDirAndroid buildType cpu = asmOutDirAndroid buildType cpu) :=
  ⟨⟨rfl, rfl⟩, ⟨rfl, rfl⟩, ⟨rfl, rfl⟩⟩

/-- C3: in the iOS assembly, every issued bitcode-strip command is preceded,
in the sequence of issued external commands, by an earlier archive (`tar`)
command — the bitcode-preserving archive is produced before any strip runs,
under every oracle. -/
theorem claim3_strip_after_first_archive (t : String) (d : Bool) (o : Oracle) (j : Nat)
    (hj : (shSites (buildRun t Platform.ios d true o).2)[j]? = some CmdSite.bitcodeStrip) :
    ∃ i, i < j ∧ (shSites (buildRun t Platform.ios d true o).2)[i]? = some CmdSite.tar := by
  have hbr : buildRun t Platform.ios d true o = runFrom o (buildSteps t Platform.ios d) := by
    simp [buildRun]
  rw [hbr] at hj ⊢
  have hsf : isFrontOf (shSites (runFrom o (buildSteps t Platform.ios d)).2)
      (shSites (buildSteps t Platform.ios d)) :=
    shSites_front (runFrom_front (buildSteps t Platform.ios d) o)
  have hjlt : j < (shSites (runFrom o (buildSteps t Platform.ios d)).2).length :=
    lt_of_getElem_some hj
  have hfull : (shSites (buildSteps t Platform.ios d))[j]? = some CmdSite.bitcodeStrip := by
    rw [front_getElem hsf hjlt]; exact hj
  have hS : shSites (buildSteps t Platform.ios d) = iosSiteSeq := rfl
  rw [hS] at hfull
  obtain ⟨i, hij, htar⟩ :=
    iosSiteSeq_strip_after_tar j (lt_of_getElem_some hfull) hfull
  refine ⟨i, hij, ?_⟩
  have heq : (shSites (buildSteps t Platform.ios d))[i]? =
      (shSites (runFrom o (buildSteps t Platform.ios d)).2)[i]? :=
    front_getElem hsf (Nat.lt_trans hij hjlt)
  rw [← heq, hS]
  exact htar

/-- C3 witness: in a fully successful iOS build the command at position 11 is
a bitcode strip, and an archive command indeed occurs earlier. -/
theorem claim3_witness :
    (shSites (buildRun "" Platform.ios false true allOk).2)[11]? = some CmdSite.bitcodeStrip ∧
    (∃ i, i < 11 ∧
      (shSites (buildRun "" Platform.ios false true allOk).2)[i]? = some CmdSite.tar) :=
  ⟨by decide, claim3_strip_after_first_archive "" false allOk 11 (by decide)⟩

/-- C4 counterexample: with the first child invocation interrupted (and every
later one succeeding), an Android build does NOT stop at the interrupted
command — it completes normally, issuing 10 external commands in total, more
than the single command the claim would allow. -/
theorem claim4_counterexample :
    interruptFirst 0 = CmdResult.interrupt ∧
    (buildRun "" Platform.android false true interruptFirst).1 = none ∧
    countSh (buildRun "" Platform.android false true interruptFirst).2 = 10 ∧
    1 < countSh (buildRun "" Platform.android false true interruptFirst).2 := by
  have hno : ∀ j, interruptFirst j = CmdResult.exit 0 ∨ interruptFirst j = CmdResult.interrupt := by
    intro j
    by_cases hj : j = 0 <;> simp [interruptFirst, hj]
  have h := runFrom_nofail (buildSteps "" Platform.android false) interruptFirst hno
  refine ⟨rfl, ?_, ?_, ?_⟩ <;> simp [buildRun, h] <;> decide

/-- C4 (amended): when an interrupt arrives while the invoker waits on a child
command, the invoker swallows it and returns normally without raising any
failure — but the run does not stop there: it continues, and in a run whose
invocations each exit 0 or get interrupted, every remaining external command
of every phase is still issued and the run completes normally. -/
theorem claim4_interrupt_swallowed (t : String) (p : Platform) (d : Bool) (o : Oracle)
    (h : ∀ j, o j = CmdResult.exit 0 ∨ o j = CmdResult.interrupt) :
    buildRun t p d true o = (none, buildSteps t p d) := by
  simpa [buildRun] using runFrom_nofail (buildSteps t p d) o h

/-- C4 witness: under the everywhere-interrupted oracle, an Android build
still performs its full step list and completes normally. -/
theorem claim4_witness :
    (∀ j, allInterrupt j = CmdResult.exit 0 ∨ allInterrupt j = CmdResult.interrupt) ∧
    buildRun "" Platform.android false true allInterrupt =
      (none, buildSteps "" Platform.android false) :=
  ⟨fun _ => Or.inr rfl,
   claim4_interrupt_swallowed "" Platform.android false allInterrupt (fun _ => Or.inr rfl)⟩

/-- C5: for every platform, when `build` or `sync` is requested and the
platform's source tree does not exist, the run prints the specific message and
exits with status 1, with no external command issued. -/
theorem claim5_missing_source_tree (t : String) (p : Platform) (d : Bool) (o : Oracle) :
    buildRun t p d false o =
      (some 1,
       [Step.fs (FsOp.print "WebRTC source not found, did you forget to run --setup?")]) ∧
    countSh (buildRun t p d false o).2 = 0 ∧
    exitStatusOf (buildRun t p d false o) = 1 ∧
    syncRun t p false o =
      (some 1,
       [Step.fs (FsOp.print "WebRTC source not found, did you forget to run --setup?")]) ∧
    countSh (syncRun t p false o).2 = 0 ∧
    exitStatusOf (syncRun t p false o) = 1 :=
  ⟨rfl, rfl, rfl, rfl, rfl, rfl⟩

/-- C6 counterexample: a reordering of the iOS target list that leaves the
underlying set unchanged (it is a permutation) changes the canonical simulator
selection — the merge's choice is not a function of the target set alone. -/
theorem claim6_counterexample :
    (["device:arm64", "simulator:x64", "simulator:arm64"] : List String).Perm
      IOS_BUILD_ARCHS ∧
    canonicalSimulator ["device:arm64", "simulator:x64", "simulator:arm64"] ≠
      canonicalSimulator IOS_BUILD_ARCHS := by
  constructor <;> decide

/-- C6 (amended): the canonical simulator target is the first simulator-variant
entry in list order; it depends only on the subsequence of simulator entries
(two target lists with the same simulator subsequence select the same
canonical target), not only on the underlying set, and on the script's
constant list the selection is `simulator:arm64`. -/
theorem claim6_canonical_of_sim_subseq (l1 l2 : List String)
    (h : simulatorsOf l1 = simulatorsOf l2) :
    canonicalSimulator l1 = canonicalSimulator l2 ∧
    canonicalSimulator IOS_BUILD_ARCHS = "simulator:arm64" :=
  ⟨by simp [canonicalSimulator, h], by decide⟩

/-- C6 witness: moving the simulator entries to the front (keeping their
order) leaves the canonical selection unchanged. -/
theorem claim6_witness :
    simulatorsOf ["simulator:arm64", "simulator:x64", "device:arm64"] =
      simulatorsOf IOS_BUILD_ARCHS ∧
    (canonicalSimulator ["simulator:arm64", "simulator:x64", "device:arm64"] =
       canonicalSimulator IOS_BUILD_ARCHS ∧
     canonicalSimulator IOS_BUILD_ARCHS = "simulator:arm64") :=
  ⟨by decide,
   claim6_canonical_of_sim_subseq ["simulator:arm64", "simulator:x64", "device:arm64"]
     IOS_BUILD_ARCHS (by decide)⟩

/-- C7 counterexample: for the iOS release/arm64/device configuration the
composed flag set has 13 entries — the sum of the three table lengths
(5 + 2 + 6) — and not that sum plus the 3 substituted values (16): the
substituted values fill `%s` placeholder entries already counted in the
tables, adding no entries. -/
theorem claim7_counterexample :
    (composedFlagsApple false "arm64" "device").length =
      GN_COMMON_ARGS.length + GN_APPLE_COMMON.length + GN_IOS_ARGS_LIST.length ∧
    (composedFlagsApple false "arm64" "device").length ≠
      GN_COMMON_ARGS.length + GN_APPLE_COMMON.length + GN_IOS_ARGS_LIST.length + 3 := by
  constructor <;> decide

/-- C7 (amended): for every platform, debug flag and architecture (and
variant), the composed flag set's length equals the sum of the lengths of all
contributing flag tables — substitution fills placeholders in place and adds
no entries, and no layer is silently dropped. -/
theorem claim7_no_layer_dropped (debug : Bool) (arch tenv cpu : String) :
    (composedFlagsApple debug arch tenv).length =
      GN_COMMON_ARGS.length + GN_APPLE_COMMON.length + GN_IOS_ARGS_LIST.length ∧
    (composedFlagsMac debug arch).length =
      GN_COMMON_ARGS.length + GN_APPLE_COMMON.length + GN_MACOS_ARGS_LIST.length ∧
    (composedFlagsAndroid debug cpu).length =
      GN_COMMON_ARGS.length + GN_ANDROID_ARGS_LIST.length := by
  refine ⟨?_, ?_, ?_⟩ <;>
    simp [composedFlagsApple, composedFlagsMac, composedFlagsAndroid, substEntries_length,
      GN_COMMON_ARGS, GN_APPLE_COMMON, GN_IOS_ARGS_LIST, GN_MACOS_ARGS_LIST,
      GN_ANDROID_ARGS_LIST]

/-- C8 counterexample: the toolchain (depot_tools) directory is not prepended
to the inherited search path — the composed `PATH` starts with the inherited
value and the toolchain directory comes after it, in both `build` and
`setup`. -/
theorem claim8_counterexample :
    buildEnvPATH "/usr/bin" Platform.ios "/t" = "/usr/bin:/t/depot_tools" ∧
    buildEnvPATH "/usr/bin" Platform.ios "/t" ≠ depotToolsDirOf "/t" ++ ":" ++ "/usr/bin" ∧
    setupEnvPATH "/usr/bin" "/t" = "/usr/bin:/t/depot_tools" ∧
    setupEnvPATH "/usr/bin" "/t" ≠ depotToolsDirOf "/t" ++ ":" ++ "/usr/bin" := by
  refine ⟨?_, ?_, ?_, ?_⟩ <;> decide

/-- C8 (amended): for every base environment and source tree root the composed
search path APPENDS the toolchain directory after the inherited search path;
for the mobile (Android) platform the SDK platform-tools, SDK tools and
build-helper directories derived from the source tree root are appended after
it in that order, and for the other platform only the toolchain directory is
appended.  `setup` composes its path the same appended way. -/
theorem claim8_path_appended (base t : String) :
    buildEnvPATH base Platform.ios t = base ++ ":" ++ depotToolsDirOf t ∧
    buildEnvPATH base Platform.android t =
      base ++ ":" ++
        (depotToolsDirOf t ++ ":" ++
          (pathJoin (pathJoin (webrtcDirOf t Platform.android)
              "third_party/android_sdk/public") "platform-tools" ++ ":" ++
            (pathJoin (pathJoin (webrtcDirOf t Platform.android)
                "third_party/android_sdk/public") "tools" ++ ":" ++
              pathJoin (webrtcDirOf t Platform.android) "build/android"))) ∧
    setupEnvPATH base t = base ++ ":" ++ depotToolsDirOf t :=
  ⟨rfl, rfl, pyFormat_two base (depotToolsDirOf t)⟩

set_option maxHeartbeats 2000000 in
/-- C9: after a fully successful build run, the per-platform build directory
contains exactly the final packages — iOS: the bitcode-preserving and the
stripped XCFramework archives, with the transient bundle directory removed
right after each of the two archives is produced; Android: the interface
archive, the packaged native-library archive and the combined archive, with
the ABI staging tree `lib` removed right after the `jar` packaging command. -/
theorem claim9_transients_removed (t : String) (d : Bool) :
    ((buildRun t Platform.ios d true allOk).1 = none ∧
     bdirFinal (buildRun t Platform.ios d true allOk).2 =
       [["WebRTC.xcframework-bitcode.tgz"], ["WebRTC.xcframework.tgz"]] ∧
     bdirTags (buildRun t Platform.ios d true allOk).2 = iosBdirTagSeq) ∧
    ((buildRun t Platform.android d true allOk).1 = none ∧
     bdirFinal (buildRun t Platform.android d true allOk).2 =
       [["libwebrtc.jar"], ["libjingle_peerconnection.so.jar"], ["android-webrtc.tgz"]] ∧
     bdirTags (buildRun t Platform.android d true allOk).2 = androidBdirTagSeq) := by
  have hio : buildRun t Platform.ios d true allOk = (none, buildSteps t Platform.ios d) := by
    simpa [buildRun] using
      runFrom_nofail (buildSteps t Platform.ios d) allOk (fun _ => Or.inl rfl)
  have han : buildRun t Platform.android d true allOk =
      (none, buildSteps t Platform.android d) := by
    simpa [buildRun] using
      runFrom_nofail (buildSteps t Platform.android d) allOk (fun _ => Or.inl rfl)
  have hiop : bdirOps (buildSteps t Platform.ios d) = iosBdirOpSeq := rfl
  have hanop : bdirOps (buildSteps t Platform.android d) = androidBdirOpSeq := rfl
  refine ⟨⟨?_, ?_, ?_⟩, ⟨?_, ?_, ?_⟩⟩
  · rw [hio]
  · rw [hio]
    show bdirFinal (buildSteps t Platform.ios d) = _
    rw [bdirFinal_eq_bOps, hiop]
    decide
  · rw [hio]
    show bdirTags (buildSteps t Platform.ios d) = _
    exact rfl
  · rw [han]
  · rw [han]
    show bdirFinal (buildSteps t Platform.android d) = _
    rw [bdirFinal_eq_bOps, hanop]
    decide
  · rw [han]
    show bdirTags (buildSteps t Platform.android d) = _
    exact rfl

/-- C10: the architecture→ABI table maps every CPU of the fixed Android build
list (so the ABI-named staging lookup in the assembly is total on every
planned target), with the exact mappings arm→armeabi-v7a, arm64→arm64-v8a,
x86→x86, x64→x86_64. -/
theorem claim10_abi_total (cpu : String) (h : cpu ∈ ANDROID_BUILD_CPUS) :
    (androidCpuAbi cpu).isSome = true ∧
    androidCpuAbi "arm" = some "armeabi-v7a" ∧
    androidCpuAbi "arm64" = some "arm64-v8a" ∧
    androidCpuAbi "x86" = some "x86" ∧
    androidCpuAbi "x64" = some "x86_64" := by
  refine ⟨?_, by decide, by decide, by decide, by decide⟩
  fin_cases h <;> decide

/-- C10 witness: instantiated at the first planned CPU. -/
theorem claim10_witness :
    "arm" ∈ ANDROID_BUILD_CPUS ∧
    ((androidCpuAbi "arm").isSome = true ∧
     androidCpuAbi "arm" = some "armeabi-v7a" ∧
     androidCpuAbi "arm64" = some "arm64-v8a" ∧
     androidCpuAbi "x86" = some "x86" ∧
     androidCpuAbi "x64" = some "x86_64") :=
  ⟨by decide, claim10_abi_total "arm" (by decide)⟩
